import Mathlib

/-!
Shallow embedding of `src/rna_seq_pipeline.py`.

The script is a straight-line orchestrator: it builds a STAR index, aligns
every FASTQ file, builds an RSEM reference, quantifies every FASTQ file, and
then runs a four-step variant-analysis chain on the BAM path derived for each
FASTQ file.  Every external tool is invoked through `subprocess.run` and the
returned `CompletedProcess` is discarded, so the embedding threads an explicit
trace of launched commands (`List Cmd`) through the program and models the
environment's exit codes as an oracle `Cmd → Int` whose answers the program
receives and ignores, exactly as the Python source does.
-/

/-- An external command, as the argv list handed to `subprocess.run`. -/
abbrev Cmd := List String

/-- Model of Python `os.path.join(a, b)` for POSIX paths: an absolute second
component replaces the first, otherwise the parts are glued with a single
separator unless one is already present. -/
def pyJoin (a b : String) : String :=
  if b.data.head? = some '/' then b
  else if a.data = [] ∨ a.data.getLast? = some '/' then a ++ b
  else a ++ "/" ++ b

/-- Model of Python `os.path.basename`: the part after the last slash. -/
def basename (p : String) : String :=
  String.mk ((p.data.reverse.takeWhile (fun c => c != '/')).reverse)

/-- Fuel-indexed worker for Python `str.replace`: scan left to right, and at
each position either emit the replacement and skip past the matched pattern or
keep one character.  The fuel is always instantiated with the length of the
scanned list, which suffices because each step consumes at least one
character. -/
def pyReplaceFuel (old new : List Char) : Nat → List Char → List Char
  | _, [] => []
  | 0, l => l
  | fuel + 1, c :: rest =>
      if old.isPrefixOf (c :: rest) && !old.isEmpty then
        new ++ pyReplaceFuel old new fuel (List.drop (old.length - 1) rest)
      else
        c :: pyReplaceFuel old new fuel rest

/-- Python `str.replace` on character lists: replace every non-overlapping
occurrence of `old` by `new`, scanning left to right. -/
def pyReplaceCore (old new l : List Char) : List Char :=
  pyReplaceFuel old new l.length l

/-- Python `s.replace(old, new)` on strings. -/
def pyReplace (s old new : String) : String :=
  String.mk (pyReplaceCore old.data new.data s.data)

/-- Whether `pat` occurs as a contiguous sublist of `l`. -/
def hasOcc (pat : List Char) : List Char → Bool
  | [] => pat.isEmpty
  | c :: rest => pat.isPrefixOf (c :: rest) || hasOcc pat rest

/-- String version of `hasOcc`. -/
def hasOccStr (pat s : String) : Bool :=
  hasOcc pat.data s.data

/-- Line 20 / 38 / 89 of the source: `os.path.basename(f).split('.')[0]`,
the sample identifier the script derives from a read-file path. -/
def sampleId (f : String) : String :=
  String.mk ((basename f).data.takeWhile (fun c => c != '.'))

/-- Line 8: `os.path.join(output_dir, 'STAR_index')`. -/
def starIndexDir (outputDir : String) : String :=
  pyJoin outputDir "STAR_index"

/-- Line 28: `os.path.join(output_dir, 'RSEM_reference')`. -/
def rsemRefDir (outputDir : String) : String :=
  pyJoin outputDir "RSEM_reference"

/-- Lines 20 and 38: `os.path.join(output_dir, basename(f).split('.')[0])`. -/
def outputPrefixOf (outputDir f : String) : String :=
  pyJoin outputDir (sampleId f)

/-- Line 48: `bam_file.replace('.bam', '.dedup.bam')`. -/
def dedup_bam_file (bam : String) : String :=
  pyReplace bam ".bam" ".dedup.bam"

/-- Line 49: `bam_file.replace('.bam', '.metrics.txt')`. -/
def metrics_file (bam : String) : String :=
  pyReplace bam ".bam" ".metrics.txt"

/-- Line 58: `dedup_bam_file.replace('.bam', '.vcf')`. -/
def vcf_file (bam : String) : String :=
  pyReplace (dedup_bam_file bam) ".bam" ".vcf"

/-- Line 64: `vcf_file.replace('.vcf', '.filtered.vcf')`. -/
def filtered_vcf_file (bam : String) : String :=
  pyReplace (vcf_file bam) ".vcf" ".filtered.vcf"

/-- Line 89: the BAM path `main` derives for each FASTQ file. -/
def bamFilesOf (outputDir : String) (fastqFiles : List String) : List String :=
  fastqFiles.map (fun f => pyJoin outputDir (sampleId f ++ "Aligned.sortedByCoord.out.bam"))

/-- Lines 12-16: the STAR genomeGenerate argv. -/
def starIndexCmd (referenceGenome gtf outputDir : String) : Cmd :=
  ["STAR", "--runThreadN", "8", "--runMode", "genomeGenerate",
   "--genomeDir", starIndexDir outputDir, "--genomeFastaFiles", referenceGenome,
   "--sjdbGTFfile", gtf, "--sjdbOverhang", "100"]

/-- Lines 21-25: the STAR alignment argv for one FASTQ file. -/
def starAlignCmd (outputDir f : String) : Cmd :=
  ["STAR", "--runThreadN", "8", "--genomeDir", starIndexDir outputDir,
   "--readFilesIn", f, "--outFileNamePrefix", outputPrefixOf outputDir f,
   "--outSAMtype", "BAM", "SortedByCoordinate"]

/-- Lines 32-34: the rsem-prepare-reference argv. -/
def rsemPrepareCmd (referenceGenome gtf outputDir : String) : Cmd :=
  ["rsem-prepare-reference", "--gtf", gtf, referenceGenome, rsemRefDir outputDir]

/-- Lines 39-43: the rsem-calculate-expression argv for one FASTQ file. -/
def rsemCalcCmd (outputDir f : String) : Cmd :=
  ["rsem-calculate-expression", "--star", "--paired-end",
   "--output-genome-bam", "--alignments", f,
   rsemRefDir outputDir, outputPrefixOf outputDir f]

/-- Lines 50-52: the gatk MarkDuplicates argv for one BAM file. -/
def markDupCmd (bam : String) : Cmd :=
  ["gatk", "MarkDuplicates", "-I", bam, "-O", dedup_bam_file bam, "-M", metrics_file bam]

/-- Line 55: the samtools index argv for one BAM file. -/
def samtoolsIndexCmd (bam : String) : Cmd :=
  ["samtools", "index", dedup_bam_file bam]

/-- Lines 59-61: the gatk HaplotypeCaller argv for one BAM file. -/
def haplotypeCallerCmd (referenceGenome bam : String) : Cmd :=
  ["gatk", "HaplotypeCaller", "-R", referenceGenome, "-I", dedup_bam_file bam,
   "-O", vcf_file bam]

/-- Lines 65-68: the gatk VariantFiltration argv for one BAM file. -/
def variantFiltrationCmd (referenceGenome bam : String) : Cmd :=
  ["gatk", "VariantFiltration", "-R", referenceGenome, "-V", vcf_file bam,
   "-O", filtered_vcf_file bam,
   "--filter-expression", "QD < 2.0 || FS > 60.0 || MQ < 40.0",
   "--filter-name", "basic_snp_filter"]

/-- The four variant-analysis commands issued for one BAM file, in source
order (lines 47-68). -/
def variantCmds (referenceGenome bam : String) : List Cmd :=
  [markDupCmd bam, samtoolsIndexCmd bam,
   haplotypeCallerCmd referenceGenome bam, variantFiltrationCmd referenceGenome bam]

/-- Model of `subprocess.run(argv)`: the command is launched (appended to the
trace) and the environment's exit code for it is returned to the caller.  The
Python source binds the returned `CompletedProcess` to nothing. -/
def subprocessRun (oracle : Cmd → Int) (argv : Cmd) (launched : List Cmd) :
    Int × List Cmd :=
  (oracle argv, launched ++ [argv])

/-- Lines 19-25: the `for fastq_file in fastq_files` alignment loop. -/
def starAlignLoop (oracle : Cmd → Int) (outputDir : String) :
    List String → List Cmd → List Cmd
  | [], launched => launched
  | f :: rest, launched =>
      let r := subprocessRun oracle (starAlignCmd outputDir f) launched
      starAlignLoop oracle outputDir rest r.2

/-- Lines 7-25: `run_star`.  The index build's exit code is discarded and the
loop then launches one alignment per FASTQ file. -/
def run_star (oracle : Cmd → Int) (fastqFiles : List String)
    (referenceGenome gtf outputDir : String) (launched : List Cmd) : List Cmd :=
  let r := subprocessRun oracle (starIndexCmd referenceGenome gtf outputDir) launched
  starAlignLoop oracle outputDir fastqFiles r.2

/-- Lines 37-43: the `for fastq_file in fastq_files` quantification loop. -/
def rsemLoop (oracle : Cmd → Int) (outputDir : String) :
    List String → List Cmd → List Cmd
  | [], launched => launched
  | f :: rest, launched =>
      let r := subprocessRun oracle (rsemCalcCmd outputDir f) launched
      rsemLoop oracle outputDir rest r.2

/-- Lines 27-43: `run_rsem`. -/
def run_rsem (oracle : Cmd → Int) (fastqFiles : List String)
    (referenceGenome gtf outputDir : String) (launched : List Cmd) : List Cmd :=
  let r := subprocessRun oracle (rsemPrepareCmd referenceGenome gtf outputDir) launched
  rsemLoop oracle outputDir fastqFiles r.2

/-- Lines 46-68: the `for bam_file in bam_files` loop; each iteration launches
the four variant-analysis commands unconditionally. -/
def variantLoop (oracle : Cmd → Int) (referenceGenome : String) :
    List String → List Cmd → List Cmd
  | [], launched => launched
  | bam :: rest, launched =>
      let r1 := subprocessRun oracle (markDupCmd bam) launched
      let r2 := subprocessRun oracle (samtoolsIndexCmd bam) r1.2
      let r3 := subprocessRun oracle (haplotypeCallerCmd referenceGenome bam) r2.2
      let r4 := subprocessRun oracle (variantFiltrationCmd referenceGenome bam) r3.2
      variantLoop oracle referenceGenome rest r4.2

/-- Lines 45-68: `run_variant_analysis`.  The `output_dir` parameter is
accepted and unused, as in the source. -/
def run_variant_analysis (oracle : Cmd → Int) (bamFiles : List String)
    (referenceGenome : String) (_outputDir : String) (launched : List Cmd) : List Cmd :=
  variantLoop oracle referenceGenome bamFiles launched

/-- Lines 70-90: `main` after argument parsing.  It runs the three phases in
sequence, never inspecting any exit code, and returns the trace of launched
commands. -/
def pipelineMain (oracle : Cmd → Int) (fastqFiles : List String)
    (referenceGenome gtf outputDir : String) : List Cmd :=
  let l1 := run_star oracle fastqFiles referenceGenome gtf outputDir []
  let l2 := run_rsem oracle fastqFiles referenceGenome gtf outputDir l1
  run_variant_analysis oracle (bamFilesOf outputDir fastqFiles) referenceGenome outputDir l2

/-- The exit status of the interpreter process running the script: `main`
contains no `sys.exit`, no exception-raising check of any tool result, and no
inspection of any `CompletedProcess`, so a run whose arguments parse finishes
normally and the process exits with status 0 regardless of what the external
tools returned. -/
def scriptExitCode (_oracle : Cmd → Int) (_fastqFiles : List String)
    (_referenceGenome _gtf _outputDir : String) : Int := 0

/-- The full command trace of one run, as a pure function of the inputs. -/
def pipelineTrace (fastqFiles : List String)
    (referenceGenome gtf outputDir : String) : List Cmd :=
  (starIndexCmd referenceGenome gtf outputDir :: fastqFiles.map (starAlignCmd outputDir))
    ++ (rsemPrepareCmd referenceGenome gtf outputDir :: fastqFiles.map (rsemCalcCmd outputDir))
    ++ (bamFilesOf outputDir fastqFiles).flatMap (variantCmds referenceGenome)

lemma starAlignLoop_eq (oracle : Cmd → Int) (outputDir : String) :
    ∀ (fq : List String) (launched : List Cmd),
      starAlignLoop oracle outputDir fq launched
        = launched ++ fq.map (starAlignCmd outputDir) := by
  intro fq
  induction fq with
  | nil => intro launched; simp [starAlignLoop]
  | cons f rest ih =>
      intro launched
      simp [starAlignLoop, subprocessRun, ih]

lemma rsemLoop_eq (oracle : Cmd → Int) (outputDir : String) :
    ∀ (fq : List String) (launched : List Cmd),
      rsemLoop oracle outputDir fq launched
        = launched ++ fq.map (rsemCalcCmd outputDir) := by
  intro fq
  induction fq with
  | nil => intro launched; simp [rsemLoop]
  | cons f rest ih =>
      intro launched
      simp [rsemLoop, subprocessRun, ih]

lemma variantLoop_eq (oracle : Cmd → Int) (referenceGenome : String) :
    ∀ (bams : List String) (launched : List Cmd),
      variantLoop oracle referenceGenome bams launched
        = launched ++ bams.flatMap (variantCmds referenceGenome) := by
  intro bams
  induction bams with
  | nil => intro launched; simp [variantLoop]
  | cons bam rest ih =>
      intro launched
      simp [variantLoop, subprocessRun, ih, variantCmds]

lemma main_eq_trace (oracle : Cmd → Int) (fq : List String)
    (referenceGenome gtf outputDir : String) :
    pipelineMain oracle fq referenceGenome gtf outputDir
      = pipelineTrace fq referenceGenome gtf outputDir := by
  simp [pipelineMain, run_star, run_rsem, run_variant_analysis, subprocessRun,
    starAlignLoop_eq, rsemLoop_eq, variantLoop_eq, pipelineTrace]

lemma mk_append (a b : String) : String.mk (a.data ++ b.data) = a ++ b := by
  cases a
  cases b
  rfl

lemma pyReplaceFuel_congr (old new : List Char) :
    ∀ (f1 f2 : Nat) (l : List Char), l.length ≤ f1 → l.length ≤ f2 →
      pyReplaceFuel old new f1 l = pyReplaceFuel old new f2 l := by
  intro f1
  induction f1 with
  | zero =>
      intro f2 l h1 _
      have hl : l = [] := List.eq_nil_of_length_eq_zero (Nat.le_zero.mp h1)
      subst hl
      cases f2 <;> simp [pyReplaceFuel]
  | succ f1 ih =>
      intro f2 l h1 h2
      match l with
      | [] => cases f2 <;> simp [pyReplaceFuel]
      | c :: rest =>
          match f2 with
          | 0 => simp at h2
          | f2 + 1 =>
              simp only [pyReplaceFuel]
              by_cases hp : (old.isPrefixOf (c :: rest) && !old.isEmpty) = true
              · rw [if_pos hp, if_pos hp]
                have hlen : (List.drop (old.length - 1) rest).length ≤ rest.length := by
                  simp [List.length_drop]
                have hr1 : rest.length ≤ f1 := by simpa using h1
                have hr2 : rest.length ≤ f2 := by simpa using h2
                rw [ih f2 (List.drop (old.length - 1) rest) (le_trans hlen hr1)
                  (le_trans hlen hr2)]
              · rw [if_neg hp, if_neg hp]
                have hr1 : rest.length ≤ f1 := by simpa using h1
                have hr2 : rest.length ≤ f2 := by simpa using h2
                rw [ih f2 rest hr1 hr2]

lemma pyReplaceCore_nil (old new : List Char) : pyReplaceCore old new [] = [] := rfl

lemma pyReplaceCore_cons_pos (old new : List Char) (c : Char) (rest : List Char)
    (hp : old.isPrefixOf (c :: rest) = true) (hne : old ≠ []) :
    pyReplaceCore old new (c :: rest)
      = new ++ pyReplaceCore old new (List.drop (old.length - 1) rest) := by
  have hcond : (old.isPrefixOf (c :: rest) && !old.isEmpty) = true := by
    cases old with
    | nil => exact absurd rfl hne
    | cons o os => simp [hp, List.isEmpty]
  show pyReplaceFuel old new (rest.length + 1) (c :: rest) = _
  simp only [pyReplaceFuel, hcond, if_true]
  congr 1
  apply pyReplaceFuel_congr
  · simp [List.length_drop]
  · exact le_rfl

lemma pyReplaceCore_cons_neg (old new : List Char) (c : Char) (rest : List Char)
    (hp : old.isPrefixOf (c :: rest) = false) :
    pyReplaceCore old new (c :: rest) = c :: pyReplaceCore old new rest := by
  have hcond : (old.isPrefixOf (c :: rest) && !old.isEmpty) = false := by simp [hp]
  show pyReplaceFuel old new (rest.length + 1) (c :: rest) = _
  simp only [pyReplaceFuel, hcond]
  rfl

lemma noStraddle (o : Char) (os : List Char) (ho : o ∉ os) (c : Char) (s t : List Char)
    (hnp : ¬ (o :: os) <+: (c :: s)) :
    ¬ (o :: os) <+: ((c :: s) ++ (o :: os) ++ t) := by
  intro h
  rcases le_or_lt (o :: os).length (c :: s).length with hle | hlt
  · apply hnp
    have htake := List.prefix_iff_eq_take.mp h
    rw [List.append_assoc, List.take_append_eq_append_take,
      Nat.sub_eq_zero_of_le hle, List.take_zero, List.append_nil] at htake
    exact List.prefix_iff_eq_take.mpr htake
  · have h3 : (o :: os) <+: (c :: s) ++ ((o :: os) ++ t) := by
      rw [← List.append_assoc]; exact h
    have hu : (c :: s) <+: (o :: os) :=
      List.prefix_of_prefix_length_le (List.prefix_append _ _) h3 (Nat.le_of_lt hlt)
    obtain ⟨r, hr⟩ := hu
    match r, hr with
    | [], hr =>
        rw [List.append_nil] at hr
        rw [hr] at hlt
        exact absurd hlt (lt_irrefl _)
    | r0 :: r', hr =>
        have h2 : (r0 :: r') <+: (o :: os) ++ t := by
          have hpre : (c :: s) ++ (r0 :: r') <+: (c :: s) ++ ((o :: os) ++ t) := by
            rw [hr]; exact h3
          exact (List.prefix_append_right_inj (c :: s)).mp hpre
        obtain ⟨z, hz⟩ := h2
        simp only [List.cons_append] at hz hr
        have hco : c = o ∧ s ++ r0 :: r' = os := by
          constructor
          · exact (List.cons.injEq _ _ _ _ ▸ hr).1
          · exact (List.cons.injEq _ _ _ _ ▸ hr).2
        have hr0 : r0 = o := (List.cons.injEq _ _ _ _ ▸ hz).1
        apply ho
        rw [← hco.2, hr0]
        exact List.mem_append_right _ (List.mem_cons_self _ _)

lemma pyReplaceCore_split (o : Char) (os new : List Char) (ho : o ∉ os) :
    ∀ s t : List Char, hasOcc (o :: os) s = false →
      pyReplaceCore (o :: os) new (s ++ (o :: os) ++ t)
        = s ++ new ++ pyReplaceCore (o :: os) new t := by
  intro s
  induction s with
  | nil =>
      intro t _
      simp only [List.nil_append, List.cons_append]
      rw [pyReplaceCore_cons_pos (o :: os) new o (os ++ t)
        (List.isPrefixOf_iff_prefix.mpr ⟨t, by simp⟩) (by simp)]
      have hdrop : List.drop ((o :: os).length - 1) (os ++ t) = t := by
        simp only [List.length_cons, Nat.add_sub_cancel]
        exact List.drop_left os t
      rw [hdrop]
  | cons c s' ih =>
      intro t hs
      have hsplit : (o :: os).isPrefixOf (c :: s') = false ∧ hasOcc (o :: os) s' = false := by
        have h := hs
        simp only [hasOcc, Bool.or_eq_false_iff] at h
        exact h
      have h1 : ¬ (o :: os) <+: (c :: s') := by
        intro hp
        rw [← List.isPrefixOf_iff_prefix, hsplit.1] at hp
        exact Bool.false_ne_true hp
      have hbig : ¬ (o :: os) <+: (c :: (s' ++ (o :: os) ++ t)) := by
        have hns := noStraddle o os ho c s' t h1
        intro hp
        apply hns
        simpa [List.cons_append, List.append_assoc] using hp
      have hbig' : (o :: os).isPrefixOf (c :: (s' ++ (o :: os) ++ t)) = false := by
        rw [← Bool.not_eq_true, List.isPrefixOf_iff_prefix]
        exact hbig
      calc pyReplaceCore (o :: os) new ((c :: s') ++ (o :: os) ++ t)
        _ = pyReplaceCore (o :: os) new (c :: (s' ++ (o :: os) ++ t)) := by
            simp [List.cons_append, List.append_assoc]
        _ = c :: pyReplaceCore (o :: os) new (s' ++ (o :: os) ++ t) :=
            pyReplaceCore_cons_neg _ _ _ _ hbig'
        _ = c :: (s' ++ new ++ pyReplaceCore (o :: os) new t) := by
            rw [ih t hsplit.2]
        _ = (c :: s') ++ new ++ pyReplaceCore (o :: os) new t := by
            simp [List.cons_append, List.append_assoc]

lemma takeWhile_append_all (p : Char → Bool) :
    ∀ (a b : List Char), (∀ x ∈ a, p x = true) →
      List.takeWhile p (a ++ b) = a ++ List.takeWhile p b := by
  intro a
  induction a with
  | nil => intro b _; simp
  | cons x a' ih =>
      intro b h
      have hx : p x = true := h x (by simp)
      simp only [List.cons_append, List.takeWhile_cons, hx, if_true]
      rw [ih b (fun y hy => h y (by simp [hy]))]

lemma pyReplace_data (s old nw : String) :
    (pyReplace s old nw).data = pyReplaceCore old.data nw.data s.data := rfl

lemma pyReplace_clean_suffix (pat nw s : String) (o : Char) (os : List Char)
    (hpat : pat.data = o :: os) (ho : o ∉ os) (hs : hasOccStr pat s = false) :
    pyReplace (s ++ pat) pat nw = s ++ nw := by
  apply String.ext
  rw [pyReplace_data, String.data_append, String.data_append, hpat]
  have hs' : hasOcc (o :: os) s.data = false := by
    rw [← hpat]; exact hs
  have h := pyReplaceCore_split o os nw.data ho s.data [] hs'
  rw [List.append_nil, pyReplaceCore_nil, List.append_nil] at h
  exact h

lemma pyReplace_two_occurrences (pat nw s t : String) (o : Char) (os : List Char)
    (hpat : pat.data = o :: os) (ho : o ∉ os)
    (hs : hasOccStr pat s = false) (ht : hasOccStr pat t = false) :
    pyReplace (s ++ pat ++ t ++ pat) pat nw = s ++ nw ++ t ++ nw := by
  apply String.ext
  rw [pyReplace_data]
  simp only [String.data_append, hpat]
  have hs' : hasOcc (o :: os) s.data = false := by
    rw [← hpat]; exact hs
  have ht' : hasOcc (o :: os) t.data = false := by
    rw [← hpat]; exact ht
  have h2 := pyReplaceCore_split o os nw.data ho s.data (t.data ++ (o :: os)) hs'
  have h3 := pyReplaceCore_split o os nw.data ho t.data [] ht'
  rw [List.append_nil, pyReplaceCore_nil, List.append_nil] at h3
  calc pyReplaceCore (o :: os) nw.data (s.data ++ (o :: os) ++ t.data ++ (o :: os))
    _ = pyReplaceCore (o :: os) nw.data (s.data ++ (o :: os) ++ (t.data ++ (o :: os))) := by
        rw [List.append_assoc (s.data ++ (o :: os))]
    _ = s.data ++ nw.data ++ pyReplaceCore (o :: os) nw.data (t.data ++ (o :: os)) := h2
    _ = s.data ++ nw.data ++ (t.data ++ nw.data) := by rw [h3]
    _ = s.data ++ nw.data ++ t.data ++ nw.data := by rw [List.append_assoc (s.data ++ nw.data)]

/-- C1: the spec claims that a per-sample stage invocation whose external
process exits with a nonzero code marks that stage failed for that sample and
excludes the sample from every later stage.  The code contradicts this: it
never inspects any exit code, so with an oracle reporting exit code 1 for
sample s1's STAR alignment, s1's quantification command and s1's
MarkDuplicates command are still launched. -/
theorem c1_downstream_launched_after_nonzero_exit :
    (fun c => if c = starAlignCmd "out" "s1.fastq" then (1 : Int) else 0)
        (starAlignCmd "out" "s1.fastq") ≠ 0
    ∧ rsemCalcCmd "out" "s1.fastq"
        ∈ pipelineMain
            (fun c => if c = starAlignCmd "out" "s1.fastq" then (1 : Int) else 0)
            ["s1.fastq", "s2.fastq"] "ref.fa" "ann.gtf" "out"
    ∧ markDupCmd "out/s1Aligned.sortedByCoord.out.bam"
        ∈ pipelineMain
            (fun c => if c = starAlignCmd "out" "s1.fastq" then (1 : Int) else 0)
            ["s1.fastq", "s2.fastq"] "ref.fa" "ann.gtf" "out" := by
  decide

/-- C2: the spec claims that a failing global index-building stage aborts the
run with exit code 2 with zero per-sample stage invocations attempted.  The
code contradicts this: with an oracle reporting exit code 1 for the STAR
genomeGenerate command, the alignment, quantification, and variant-analysis
commands for the sample are all still launched, and the script finishes with
process exit status 0. -/
theorem c2_per_sample_stages_launched_after_index_failure :
    (fun c => if c = starIndexCmd "ref.fa" "ann.gtf" "out" then (1 : Int) else 0)
        (starIndexCmd "ref.fa" "ann.gtf" "out") ≠ 0
    ∧ starAlignCmd "out" "s1.fastq"
        ∈ pipelineMain
            (fun c => if c = starIndexCmd "ref.fa" "ann.gtf" "out" then (1 : Int) else 0)
            ["s1.fastq"] "ref.fa" "ann.gtf" "out"
    ∧ rsemCalcCmd "out" "s1.fastq"
        ∈ pipelineMain
            (fun c => if c = starIndexCmd "ref.fa" "ann.gtf" "out" then (1 : Int) else 0)
            ["s1.fastq"] "ref.fa" "ann.gtf" "out"
    ∧ markDupCmd "out/s1Aligned.sortedByCoord.out.bam"
        ∈ pipelineMain
            (fun c => if c = starIndexCmd "ref.fa" "ann.gtf" "out" then (1 : Int) else 0)
            ["s1.fastq"] "ref.fa" "ann.gtf" "out"
    ∧ scriptExitCode
        (fun c => if c = starIndexCmd "ref.fa" "ann.gtf" "out" then (1 : Int) else 0)
        ["s1.fastq"] "ref.fa" "ann.gtf" "out" = 0 := by
  decide

/-- C3: the spec claims a per-sample stage is marked succeeded only when the
exit code was zero and every expected output artifact exists, so that exit
code 0 with a missing output yields failed.  The code contradicts this: it
keeps no status records and consults neither exit codes nor the filesystem,
so the launched-command trace is identical under every exit-code oracle and
no outcome can ever be classified as failed. -/
theorem c3_trace_ignores_all_exit_codes (o o' : Cmd → Int) (fq : List String)
    (referenceGenome gtf outputDir : String) :
    pipelineMain o fq referenceGenome gtf outputDir
      = pipelineMain o' fq referenceGenome gtf outputDir := by
  rw [main_eq_trace, main_eq_trace]

/-- C4: the spec claims that two distinct read files deriving the same
sample_id are a fatal configuration error caught before any process launch.
The code contradicts this: a.fq and a.fastq both normalize to sample id a and
to the same output prefix out/a, yet the full run of 14 commands is launched
with no error. -/
theorem c4_duplicate_sample_ids_not_detected :
    sampleId "a.fq" = "a" ∧ sampleId "a.fastq" = "a" ∧ ("a.fq" : String) ≠ "a.fastq"
    ∧ outputPrefixOf "out" "a.fq" = outputPrefixOf "out" "a.fastq"
    ∧ (pipelineMain (fun _ => 0) ["a.fq", "a.fastq"] "ref.fa" "ann.gtf" "out").length
        = 14 := by
  decide

/-- C5: the spec claims a stage's command is never built until all of the
stage's dependencies have a succeeded record.  The code contradicts this:
with an oracle reporting exit code 1 for sample s1's MarkDuplicates, the
dependent samtools index, HaplotypeCaller, and VariantFiltration commands for
the same sample are still launched. -/
theorem c5_dependent_commands_launched_after_dependency_failure :
    (fun c => if c = markDupCmd "out/s1Aligned.sortedByCoord.out.bam" then (1 : Int) else 0)
        (markDupCmd "out/s1Aligned.sortedByCoord.out.bam") ≠ 0
    ∧ samtoolsIndexCmd "out/s1Aligned.sortedByCoord.out.bam"
        ∈ pipelineMain
            (fun c => if c = markDupCmd "out/s1Aligned.sortedByCoord.out.bam" then (1 : Int) else 0)
            ["s1.fastq"] "ref.fa" "ann.gtf" "out"
    ∧ haplotypeCallerCmd "ref.fa" "out/s1Aligned.sortedByCoord.out.bam"
        ∈ pipelineMain
            (fun c => if c = markDupCmd "out/s1Aligned.sortedByCoord.out.bam" then (1 : Int) else 0)
            ["s1.fastq"] "ref.fa" "ann.gtf" "out"
    ∧ variantFiltrationCmd "ref.fa" "out/s1Aligned.sortedByCoord.out.bam"
        ∈ pipelineMain
            (fun c => if c = markDupCmd "out/s1Aligned.sortedByCoord.out.bam" then (1 : Int) else 0)
            ["s1.fastq"] "ref.fa" "ann.gtf" "out" := by
  decide

/-- C6: for every BAM file processed by variant analysis, exactly four
commands are issued in the order MarkDuplicates, samtools index,
HaplotypeCaller, VariantFiltration, each consuming the path derived from the
previous step: the dedup BAM from the input BAM, the index of the dedup BAM,
the VCF from the dedup BAM, and the filtered VCF from the VCF. -/
theorem c6_variant_analysis_issues_four_chained_commands (o : Cmd → Int)
    (bamFiles : List String) (referenceGenome outputDir : String) :
    run_variant_analysis o bamFiles referenceGenome outputDir []
      = bamFiles.flatMap (fun bam =>
          [["gatk", "MarkDuplicates", "-I", bam,
            "-O", pyReplace bam ".bam" ".dedup.bam",
            "-M", pyReplace bam ".bam" ".metrics.txt"],
           ["samtools", "index", pyReplace bam ".bam" ".dedup.bam"],
           ["gatk", "HaplotypeCaller", "-R", referenceGenome,
            "-I", pyReplace bam ".bam" ".dedup.bam",
            "-O", pyReplace (pyReplace bam ".bam" ".dedup.bam") ".bam" ".vcf"],
           ["gatk", "VariantFiltration", "-R", referenceGenome,
            "-V", pyReplace (pyReplace bam ".bam" ".dedup.bam") ".bam" ".vcf",
            "-O", pyReplace (pyReplace (pyReplace bam ".bam" ".dedup.bam") ".bam" ".vcf")
              ".vcf" ".filtered.vcf",
            "--filter-expression", "QD < 2.0 || FS > 60.0 || MQ < 40.0",
            "--filter-name", "basic_snp_filter"]]) := by
  rw [run_variant_analysis, variantLoop_eq]
  rfl

/-- C7: the sample identifier used to name a read file's outputs is that
file's base name with all extensions stripped: whenever the base name splits
into a dot-free stem followed by an extension block beginning with a dot (or
empty), the derived sample id is exactly the stem, and the output prefix is
built from it. -/
theorem c7_sample_id_strips_all_extensions (f stem exts outputDir : String)
    (hsplit : (basename f).data = stem.data ++ exts.data)
    (hstem : ∀ c ∈ stem.data, (c != '.') = true)
    (hext : exts.data.head? = some '.' ∨ exts = "") :
    sampleId f = stem ∧ outputPrefixOf outputDir f = pyJoin outputDir stem := by
  have hexts : exts.data.takeWhile (fun c => c != '.') = [] := by
    rcases hext with h | h
    · cases hd : exts.data with
      | nil => simp
      | cons c r =>
          rw [hd] at h
          simp only [List.head?] at h
          have hc : c = '.' := by injection h
          subst hc
          simp [List.takeWhile_cons]
    · rw [h]; rfl
  have hid : sampleId f = stem := by
    apply String.ext
    show ((basename f).data.takeWhile (fun c => c != '.')) = stem.data
    rw [hsplit, takeWhile_append_all _ _ _ hstem, hexts, List.append_nil]
  exact ⟨hid, by rw [outputPrefixOf, hid]⟩

/-- C7 witness: at the concrete read file data/sample1.fastq.gz the
hypotheses hold and the derived sample id is sample1. -/
theorem c7_witness :
    (basename "data/sample1.fastq.gz").data = "sample1".data ++ ".fastq.gz".data
    ∧ sampleId "data/sample1.fastq.gz" = "sample1"
    ∧ outputPrefixOf "out" "data/sample1.fastq.gz" = pyJoin "out" "sample1" := by
  have h := c7_sample_id_strips_all_extensions "data/sample1.fastq.gz" "sample1"
    ".fastq.gz" "out" (by decide) (by decide) (Or.inl (by decide))
  exact ⟨by decide, h.1, h.2⟩

/-- C8: path resolution is deterministic: computing the derived file paths of
the stages twice with identical arguments yields identical results.  In the
source every path derivation is a pure string operation, which the embedding
mirrors, so the two evaluations are definitionally the same. -/
theorem c8_path_resolution_deterministic (f bam outputDir : String) :
    (sampleId f, outputPrefixOf outputDir f, starIndexDir outputDir,
      rsemRefDir outputDir, dedup_bam_file bam, metrics_file bam,
      vcf_file bam, filtered_vcf_file bam)
    = (sampleId f, outputPrefixOf outputDir f, starIndexDir outputDir,
      rsemRefDir outputDir, dedup_bam_file bam, metrics_file bam,
      vcf_file bam, filtered_vcf_file bam) := rfl

/-- C9: every input read file is its own sample: run_star issues exactly one
alignment command per FASTQ file, each passing that single file to
--readFilesIn, and every rsem-calculate-expression command unconditionally
carries the --paired-end flag; mate files are never grouped into one
sample. -/
theorem c9_one_sample_per_file_and_unconditional_paired_end (o : Cmd → Int)
    (fq : List String) (referenceGenome gtf outputDir : String) :
    run_star o fq referenceGenome gtf outputDir []
        = starIndexCmd referenceGenome gtf outputDir :: fq.map (starAlignCmd outputDir)
    ∧ (fq.map (starAlignCmd outputDir)).length = fq.length
    ∧ (∀ f, starAlignCmd outputDir f
          = ["STAR", "--runThreadN", "8", "--genomeDir", starIndexDir outputDir,
             "--readFilesIn", f, "--outFileNamePrefix", outputPrefixOf outputDir f,
             "--outSAMtype", "BAM", "SortedByCoordinate"])
    ∧ run_rsem o fq referenceGenome gtf outputDir []
        = rsemPrepareCmd referenceGenome gtf outputDir :: fq.map (rsemCalcCmd outputDir)
    ∧ (∀ f, "--paired-end" ∈ rsemCalcCmd outputDir f) := by
  refine ⟨?_, by simp, fun f => rfl, ?_, fun f => ?_⟩
  · rw [run_star, starAlignLoop_eq]; rfl
  · rw [run_rsem, rsemLoop_eq]; rfl
  · simp [rsemCalcCmd]

/-- C10: variant-analysis artifact names are derived by substituting every
occurrence of the suffix pattern anywhere in the path: a second .bam
occurrence, for instance inside a directory component, is rewritten as well,
and the derivation is a clean suffix swap precisely under the precondition
that the pattern occurs exactly once, at the end of the path. -/
theorem c10_replace_rewrites_every_occurrence :
    (∀ s t : String, hasOccStr ".bam" s = false → hasOccStr ".bam" t = false →
        dedup_bam_file (s ++ ".bam" ++ t ++ ".bam")
          = s ++ ".dedup.bam" ++ t ++ ".dedup.bam")
    ∧ (∀ s : String, hasOccStr ".bam" s = false →
        dedup_bam_file (s ++ ".bam") = s ++ ".dedup.bam")
    ∧ (∀ s : String, hasOccStr ".vcf" s = false →
        pyReplace (s ++ ".vcf") ".vcf" ".filtered.vcf" = s ++ ".filtered.vcf") := by
  refine ⟨fun s t hs ht => ?_, fun s hs => ?_, fun s hs => ?_⟩
  · exact pyReplace_two_occurrences ".bam" ".dedup.bam" s t '.' "bam".data rfl
      (by decide) hs ht
  · exact pyReplace_clean_suffix ".bam" ".dedup.bam" s '.' "bam".data rfl
      (by decide) hs
  · exact pyReplace_clean_suffix ".vcf" ".filtered.vcf" s '.' "vcf".data rfl
      (by decide) hs

/-- C10 witness: a path carrying .bam both in a directory component and as the
final suffix has both occurrences rewritten. -/
theorem c10_witness :
    hasOccStr ".bam" "/data/run" = false ∧ hasOccStr ".bam" "/s1" = false
    ∧ dedup_bam_file "/data/run.bam/s1.bam" = "/data/run.dedup.bam/s1.dedup.bam" := by
  have h := c10_replace_rewrites_every_occurrence.1 "/data/run" "/s1"
    (by decide) (by decide)
  exact ⟨by decide, by decide, h⟩
